import Mathlib

/-!
# Verification of `ultimate_rprint.py`

A shallow embedding of the display-dispatch layer of the repository
`ultimate_rprint` (file `ultimate_rprint.py`).  Python values that can be
passed to the display helpers are modelled by `PyVal`; every helper is
modelled as a pure function from its inputs to the list of `RenderEvent`s
it writes to the terminal (the `rich` backend's drawing is the boundary:
an event records exactly the data the code hands to the backend).
Helpers that can raise return `Except String (List RenderEvent)`.

Python `dict`s preserve insertion order, so a dict is an ordered
association list.  Machine-level concerns that the claims do not touch
(float formatting of the progress percentage) are kept as exact rational
arithmetic, recorded in the event.
-/

/-- The Python values the display helpers inspect: strings, ints, bools,
`None`, lists and (insertion-ordered) dicts with string keys. -/
inductive PyVal where
  | str (s : String)
  | int (n : Int)
  | bool (b : Bool)
  | null
  | list (elems : List PyVal)
  | dict (entries : List (String × PyVal))

/-- A Python `dict` with string keys, in insertion order. -/
abbrev PyDict := List (String × PyVal)

mutual
/-- Python `repr` of a value (as used inside `str` of a container):
strings are quoted with single quotes, `True`/`False`/`None` as in Python. -/
def pyRepr : PyVal → String
  | .str s => "'" ++ s ++ "'"
  | .int n => toString n
  | .bool b => if b then "True" else "False"
  | .null => "None"
  | .list l => "[" ++ pyReprList l ++ "]"
  | .dict d => "\x7b" ++ pyReprDict d ++ "\x7d"

/-- `repr` of list elements, comma separated. -/
def pyReprList : List PyVal → String
  | [] => ""
  | [v] => pyRepr v
  | v :: rest => pyRepr v ++ ", " ++ pyReprList rest

/-- `repr` of dict entries, comma separated, `'key': value`. -/
def pyReprDict : List (String × PyVal) → String
  | [] => ""
  | [(k, v)] => "'" ++ k ++ "': " ++ pyRepr v
  | (k, v) :: rest => "'" ++ k ++ "': " ++ pyRepr v ++ ", " ++ pyReprDict rest
end

/-- Python `str` of a value: a string is itself, containers via `repr`. -/
def pyStr : PyVal → String
  | .str s => s
  | v => pyRepr v

/-- `dict.get(key, "")` as used in `rprint_table`: the stored value, or the
empty string default when the key is absent.  Python returns the first
binding of the key. -/
def dictGet (d : PyDict) (key : String) : PyVal :=
  match d.find? (fun kv => kv.1 = key) with
  | some kv => kv.2
  | none => PyVal.str ""

/-- `key.replace('_', ' ')`: every underscore becomes a space. -/
def underscoreToSpace (s : String) : String :=
  String.mk (s.data.map (fun c => if c = '_' then ' ' else c))

/-- Worker for `py_title`: the flag records whether the previous character
was a letter. -/
def pyTitleGo : Bool → List Char → List Char
  | _, [] => []
  | prevAlpha, c :: cs =>
    if c.isAlpha then
      (if prevAlpha then c.toLower else c.toUpper) :: pyTitleGo true cs
    else
      c :: pyTitleGo false cs

/-- Python `str.title()` (ASCII model): the first letter of every word is
uppercased, every other letter lowercased; non-letters pass through and
start a new word. -/
def py_title (s : String) : String :=
  String.mk (pyTitleGo false s.data)

/-- Python `str.rstrip()`: trailing whitespace removed. -/
def pyRstrip (s : String) : String :=
  String.mk ((s.data.reverse.dropWhile Char.isWhitespace).reverse)

/-- Python `str.strip()`: leading and trailing whitespace removed. -/
def pyStrip (s : String) : String :=
  String.mk
    (((s.data.dropWhile Char.isWhitespace).reverse.dropWhile
      Char.isWhitespace).reverse)

/-- One write to the terminal backend.  `line` is a bare styled line
(`rprint(f"...")`); `panel` is `Panel(body, title=..., border_style=...)`;
`jsonPanel` is a panel whose body is the `JSON.from_data` widget for a
value; `tableOut` is a `Table` with its title, column headers, cell rows
and optional caption; `progressLine` records everything interpolated into
the progress-bar line (the percentage kept exact as a rational). -/
inductive RenderEvent where
  | line (markup : String)
  | panel (body : String) (title : String) (borderStyle : String)
  | jsonPanel (data : PyVal) (title : String) (borderStyle : String)
  | tableOut (title : String) (columns : List String)
      (rows : List (List String)) (caption : Option String)
  | progressLine (description : String) (bar : String)
      (current : Nat) (total : Nat) (percentage : ℚ)

/-- `rprint_info`: `rprint(f"[blue]ℹ {message}[/blue]")`. -/
def rprint_info (message : String) : List RenderEvent :=
  [.line ("[blue]ℹ " ++ message ++ "[/blue]")]

/-- `rprint_success`: `rprint(f"[green]✓ {message}[/green]")`. -/
def rprint_success (message : String) : List RenderEvent :=
  [.line ("[green]✓ " ++ message ++ "[/green]")]

/-- `rprint_warning`: `rprint(f"[yellow]⚠ {message}[/yellow]")`. -/
def rprint_warning (message : String) : List RenderEvent :=
  [.line ("[yellow]⚠ " ++ message ++ "[/yellow]")]

/-- `rprint_error`: `rprint(f"[red]✗ {message}[/red]")`. -/
def rprint_error (message : String) : List RenderEvent :=
  [.line ("[red]✗ " ++ message ++ "[/red]")]

/-- `rprint_debug`: `rprint(f"[magenta][debug] {message}[/magenta]")`. -/
def rprint_debug (message : String) : List RenderEvent :=
  [.line ("[magenta][debug] " ++ message ++ "[/magenta]")]

/-- `rprint_progress_msg`: `rprint(f"[cyan]▶ {message}[/cyan]")`. -/
def rprint_progress_msg (message : String) : List RenderEvent :=
  [.line ("[cyan]▶ " ++ message ++ "[/cyan]")]

/-- `rprint_json(data, title)`.  A string payload is first given to
`json.loads` (the parse function is the library boundary and is passed as
an argument); `json.JSONDecodeError` is caught and reported as the red
notice `Invalid JSON string`, after which the function returns.  Any
successfully obtained value is drawn as a cyan-bordered panel around the
`JSON.from_data` widget. -/
def rprint_json (parse : String → Option PyVal) (data : PyVal)
    (title : String) : List RenderEvent :=
  match data with
  | .str s =>
    match parse s with
    | none => [.line "[red]Invalid JSON string[/red]"]
    | some v => [.jsonPanel v ("[bold cyan]" ++ title ++ "[/bold cyan]") "cyan"]
  | v => [.jsonPanel v ("[bold cyan]" ++ title ++ "[/bold cyan]") "cyan"]

/-- The `content` string accumulated by `rprint_key_value`:
one `[cyan]Key:[/cyan] [white]value[/white]\n` fragment per entry. -/
def keyValueContent : PyDict → String
  | [] => ""
  | (k, v) :: rest =>
    "[cyan]" ++ py_title (underscoreToSpace k) ++ ":[/cyan] [white]"
      ++ pyStr v ++ "[/white]\n" ++ keyValueContent rest

/-- `rprint_key_value(data, title)`: the accumulated content, right-stripped,
in a blue-bordered panel. -/
def rprint_key_value (data : PyDict) (title : String) : List RenderEvent :=
  [.panel (pyRstrip (keyValueContent data))
    ("[bold blue]" ++ title ++ "[/bold blue]") "blue"]

/-- The `content` string accumulated by `rprint_list`: enumeration starts
at 1; the prefix is `"{i}. "` when numbered, `"• "` otherwise. -/
def listContent (numbered : Bool) : Nat → List String → String
  | _, [] => ""
  | i, item :: rest =>
    "[cyan]" ++ (if numbered then toString i ++ ". " else "• ")
      ++ "[/cyan][white]" ++ item ++ "[/white]\n" ++ listContent numbered (i + 1) rest

/-- `rprint_list(items, title, numbered=True)`: the accumulated content,
right-stripped, in a blue-bordered panel. -/
def rprint_list (items : List String) (title : String)
    (numbered : Bool := true) : List RenderEvent :=
  [.panel (pyRstrip (listContent numbered 1 items))
    ("[bold blue]" ++ title ++ "[/bold blue]") "blue"]

/-- `rprint_table(data, title, max_rows=10)`.  Zero rows: the warning
`No data for table` and return.  Otherwise the columns are the keys of the
first row in first-seen order, each shown as `key.replace('_',' ').title()`;
the first `max_rows` rows are added, every cell `str(row.get(key, ""))[:50]`;
when rows were omitted the caption `Showing {max_rows} of {len(data)} rows`
is set. -/
def rprint_table (data : List PyDict) (title : String)
    (max_rows : Nat := 10) : List RenderEvent :=
  match data with
  | [] => rprint_warning "No data for table"
  | first_row :: _ =>
    let columns := first_row.map (fun kv => py_title (underscoreToSpace kv.1))
    let rows := (data.take max_rows).map (fun row =>
      first_row.map (fun kv => String.mk ((pyStr (dictGet row kv.1)).data.take 50)))
    let caption :=
      if data.length > max_rows then
        some ("Showing " ++ toString max_rows ++ " of "
          ++ toString data.length ++ " rows")
      else none
    [.tableOut ("[bold blue]" ++ title ++ "[/bold blue]") columns rows caption]

/-- `rprint_preview_text(text, max_chars=200)`: the preview is
`text[:max_chars] + "..."` when `len(text) > max_chars`, else the text
itself, printed dim. -/
def rprint_preview_text (text : String) (max_chars : Nat := 200) :
    List RenderEvent :=
  let preview :=
    if text.length > max_chars then String.mk (text.data.take max_chars) ++ "..."
    else text
  [.line ("[dim]" ++ preview ++ "[/dim]")]

/-- `isinstance(item, dict)`. -/
def PyVal.isDict : PyVal → Bool
  | .dict _ => true
  | _ => false

/-- The entries of a value known to be a dict (`[]` otherwise; applied only
under the all-elements-are-dicts check). -/
def PyVal.asDict : PyVal → PyDict
  | .dict d => d
  | _ => []

/-- `data.strip().startswith('{')`: the stripped string's first character
is a left brace. -/
def strippedStartsWithLbrace (s : String) : Bool :=
  match (pyStrip s).data with
  | c :: _ => c == Char.ofNat 123
  | [] => false

/-- `rprint_display_any(data, title="Data")`: the shape dispatcher.
A dict with fewer than 10 entries goes to `rprint_key_value`, a larger
dict to `rprint_json`; a list whose elements are all dicts goes to
`rprint_table` (with the default row cap), any other list to `rprint_list`
with every element stringified; a string whose `strip()` starts with a
left brace goes to `rprint_json`; everything else becomes the info line
`"{title}: {data}"`. -/
def rprint_display_any (parse : String → Option PyVal) (data : PyVal)
    (title : String := "Data") : List RenderEvent :=
  match data with
  | .dict d =>
    if d.length < 10 then rprint_key_value d title
    else rprint_json parse (.dict d) title
  | .list l =>
    if l.all PyVal.isDict then rprint_table (l.map PyVal.asDict) title
    else rprint_list (l.map pyStr) title
  | .str s =>
    if strippedStartsWithLbrace s then rprint_json parse (.str s) title
    else rprint_info (title ++ ": " ++ s)
  | v => rprint_info (title ++ ": " ++ pyStr v)

/-- `rprint_progress_bar(current, total, description="Progress")`.
`percentage = (current / total) * 100` divides with no guard on `total`;
Python raises `ZeroDivisionError` when `total == 0`.  Otherwise the bar is
`"█" * int(percentage // 5) + "░" * (20 - int(percentage // 5))` (a
negative repeat count yields the empty string, as does truncated `Nat`
subtraction) and one line is written.  Python computes `percentage` in
floating point; the model uses exact rational arithmetic and records the
percentage in the event rather than its `:.1f` rendering. -/
def rprint_progress_bar (current total : Nat)
    (description : String := "Progress") : Except String (List RenderEvent) :=
  if total = 0 then .error "ZeroDivisionError: division by zero"
  else
    let percentage : ℚ := (current : ℚ) / (total : ℚ) * 100
    let filled : Nat := (percentage / 5).floor.toNat
    let bar := String.mk
      (List.replicate filled '█' ++ List.replicate (20 - filled) '░')
    .ok [.progressLine description bar current total percentage]

/-- The module's global namespace, restricted to the one-string-argument
message helpers (the only shape `rprint_log` can call).  The module
defines `rprint_info`, `rprint_success`, `rprint_warning`, `rprint_error`,
`rprint_debug` and `rprint_progress_msg`; it defines no global named
`info` — the quick-start text mentioning `info(...)` sits inside a string
literal, not a definition, and no import binds that name. -/
def moduleGlobals : String → Option (String → List RenderEvent)
  | "rprint_info" => some rprint_info
  | "rprint_success" => some rprint_success
  | "rprint_warning" => some rprint_warning
  | "rprint_error" => some rprint_error
  | "rprint_debug" => some rprint_debug
  | "rprint_progress_msg" => some rprint_progress_msg
  | _ => none

/-- `rprint_log(message, level="info")`.  The level map binds the six
category strings to their helpers, and the dispatch is
`level_map.get(level, info)`.  Python evaluates the argument expression
`info` before calling `get`: a global name lookup that raises `NameError`
when the module namespace has no such binding (it does not — see
`moduleGlobals`).  Only if that lookup succeeded would the mapped (or
default) helper run. -/
def rprint_log (message : String) (level : String := "info") :
    Except String (List RenderEvent) :=
  let level_map : List (String × (String → List RenderEvent)) :=
    [("info", rprint_info), ("success", rprint_success),
     ("warning", rprint_warning), ("error", rprint_error),
     ("debug", rprint_debug), ("progress", rprint_progress_msg)]
  match moduleGlobals "info" with
  | none => .error "NameError: name 'info' is not defined"
  | some dflt =>
    .ok ((((level_map.find? (fun kv => kv.1 = level)).map Prod.snd).getD dflt)
      message)

/-- Modelled from the spec: `rich.prompt.Prompt.ask` with a `choices` list
is third-party library code, not part of this repository.  Per the spec's
prompt-adapter contract, the call blocks, re-prompts on any answer outside
`choices`, and returns the first answer that is a member of `choices`.
The human's successive answers are modelled as a list; an answer stream
that never supplies a valid choice leaves the call blocked forever,
modelled as `none`. -/
def Prompt_ask (question : String) (choices : List String)
    (answers : List String) : Option String :=
  answers.find? (fun a => choices.contains a)

/-- `rprint_ask_choice(question, choices)`: delegates to `Prompt.ask` with
the cyan-styled question and the given choices. -/
def rprint_ask_choice (question : String) (choices : List String)
    (answers : List String) : Option String :=
  Prompt_ask ("[cyan]" ++ question ++ "[/cyan]") choices answers

/-- The left-brace character. -/
def lbrace : Char := Char.ofNat 123

/-- The right-brace character. -/
def rbrace : Char := Char.ofNat 125

/-- Skip JSON whitespace. -/
def skipWs : List Char → List Char
  | c :: cs =>
    if c = ' ' ∨ c = '\t' ∨ c = '\n' ∨ c = '\r' then skipWs cs else c :: cs
  | [] => []

/-- Parse the body of a JSON string literal (after the opening quote) up
to the closing quote.  Escape sequences are not modelled: this sits at the
`json.loads` library boundary and covers the escape-free fragment the
development evaluates. -/
def parseStringLit : List Char → Option (List Char × List Char)
  | [] => none
  | c :: cs =>
    if c = '"' then some ([], cs)
    else
      match parseStringLit cs with
      | some (s, rest) => some (c :: s, rest)
      | none => none

/-- Split off the maximal run of leading decimal digits. -/
def digitsPrefix : List Char → List Char × List Char
  | [] => ([], [])
  | c :: cs =>
    if c.isDigit then
      let (ds, rest) := digitsPrefix cs
      (c :: ds, rest)
    else ([], c :: cs)

/-- Numeric value of a digit run. -/
def digitsToNat (ds : List Char) : Nat :=
  ds.foldl (fun acc c => acc * 10 + (c.toNat - 48)) 0

mutual
/-- Fuel-bounded JSON value parser, the concrete model of the `json.loads`
library boundary: objects, arrays, double-quoted strings without escapes,
integers, `true`, `false`, `null`. -/
def parseVal : Nat → List Char → Option (PyVal × List Char)
  | 0, _ => none
  | fuel + 1, cs =>
    match skipWs cs with
    | [] => none
    | c :: rest =>
      if c = lbrace then
        match skipWs rest with
        | d :: rest2 =>
          if d = rbrace then some (.dict [], rest2)
          else parseObjEntries fuel (d :: rest2)
        | [] => none
      else if c = '[' then
        match skipWs rest with
        | d :: rest2 =>
          if d = ']' then some (.list [], rest2)
          else parseArrElems fuel (d :: rest2)
        | [] => none
      else if c = '"' then
        match parseStringLit rest with
        | some (s, rest2) => some (.str (String.mk s), rest2)
        | none => none
      else if c = '-' then
        match digitsPrefix rest with
        | ([], _) => none
        | (ds, rest2) => some (.int (-(digitsToNat ds : Int)), rest2)
      else if c.isDigit then
        let (ds, rest2) := digitsPrefix (c :: rest)
        some (.int (digitsToNat ds), rest2)
      else if (c :: rest).take 4 = ['t', 'r', 'u', 'e'] then
        some (.bool true, (c :: rest).drop 4)
      else if (c :: rest).take 5 = ['f', 'a', 'l', 's', 'e'] then
        some (.bool false, (c :: rest).drop 5)
      else if (c :: rest).take 4 = ['n', 'u', 'l', 'l'] then
        some (.null, (c :: rest).drop 4)
      else none

/-- Parse one or more `"key": value` object entries and the closing brace. -/
def parseObjEntries : Nat → List Char → Option (PyVal × List Char)
  | 0, _ => none
  | fuel + 1, cs =>
    match skipWs cs with
    | [] => none
    | c :: rest =>
      if c = '"' then
        match parseStringLit rest with
        | none => none
        | some (k, rest2) =>
          match skipWs rest2 with
          | ':' :: rest3 =>
            match parseVal fuel rest3 with
            | none => none
            | some (v, rest4) =>
              match skipWs rest4 with
              | ',' :: rest5 =>
                match parseObjEntries fuel rest5 with
                | some (.dict entries, rest6) =>
                  some (.dict ((String.mk k, v) :: entries), rest6)
                | _ => none
              | d :: rest5 =>
                if d = rbrace then some (.dict [(String.mk k, v)], rest5)
                else none
              | [] => none
          | _ => none
      else none

/-- Parse one or more array elements and the closing bracket. -/
def parseArrElems : Nat → List Char → Option (PyVal × List Char)
  | 0, _ => none
  | fuel + 1, cs =>
    match parseVal fuel cs with
    | none => none
    | some (v, rest) =>
      match skipWs rest with
      | ',' :: rest2 =>
        match parseArrElems fuel rest2 with
        | some (.list elems, rest3) => some (.list (v :: elems), rest3)
        | _ => none
      | ']' :: rest2 => some (.list [v], rest2)
      | _ => none
end

/-- `json.loads` (library boundary): parse one complete JSON document with
nothing but whitespace after it. -/
def json_loads (s : String) : Option PyVal :=
  match parseVal (s.length + 2) s.data with
  | some (v, rest) => if skipWs rest = [] then some v else none
  | none => none

/-- Every element of a list of dicts passes the `isinstance(item, dict)`
check. -/
theorem all_isDict_map_dict (l : List PyDict) :
    (l.map PyVal.dict).all PyVal.isDict = true := by
  induction l with
  | nil => rfl
  | cons h t ih => simp [PyVal.isDict, ih]

/-- Wrapping dicts and unwrapping them again is the identity. -/
theorem map_asDict_map_dict (l : List PyDict) :
    l.map (PyVal.asDict ∘ PyVal.dict) = l := by
  induction l with
  | nil => rfl
  | cons h t ih => simp [PyVal.asDict, Function.comp, ih]

/-- Computation lemma: `rprint_table` on a non-empty row list emits one
table whose columns are the first row's keys (transformed), whose rows are
the first `max_rows` inputs cell-clipped to 50 characters, and whose
caption appears exactly when rows were omitted. -/
theorem rprint_table_cons (first : PyDict) (rest : List PyDict)
    (title : String) (max_rows : Nat) :
    rprint_table (first :: rest) title max_rows
      = [.tableOut ("[bold blue]" ++ title ++ "[/bold blue]")
          (first.map fun kv => py_title (underscoreToSpace kv.1))
          (((first :: rest).take max_rows).map fun row =>
            first.map fun kv =>
              String.mk ((pyStr (dictGet row kv.1)).data.take 50))
          (if (first :: rest).length > max_rows then
            some ("Showing " ++ toString max_rows ++ " of "
              ++ toString (first :: rest).length ++ " rows")
          else none)] := rfl

/-- C1: for every dict payload `d`, `rprint_display_any` emits the
key-value panel (the `rprint_key_value` strategy) when `len(d) < 10` and
the structured JSON panel (the `rprint_json` strategy) when
`len(d) >= 10`. -/
theorem display_any_dict_strategy (parse : String → Option PyVal)
    (d : PyDict) (title : String) :
    rprint_display_any parse (.dict d) title
      = if d.length < 10 then
          [.panel (pyRstrip (keyValueContent d))
            ("[bold blue]" ++ title ++ "[/bold blue]") "blue"]
        else
          [.jsonPanel (.dict d) ("[bold cyan]" ++ title ++ "[/bold cyan]")
            "cyan"] := by
  by_cases h : d.length < 10 <;>
    simp [rprint_display_any, rprint_key_value, rprint_json, h]

/-- C2: for every list payload whose elements are all dicts and whose
first element is non-empty, `rprint_display_any` emits one table, and the
emitted column order is the key order of the first element (first-seen
order), each key shown via `replace('_',' ').title()`. -/
theorem display_any_table_strategy (parse : String → Option PyVal)
    (k0 : String) (v0 : PyVal) (kvs : PyDict) (rest : List PyDict)
    (title : String) :
    ∃ rows caption,
      rprint_display_any parse
          (.list (PyVal.dict ((k0, v0) :: kvs) :: rest.map PyVal.dict)) title
        = [.tableOut ("[bold blue]" ++ title ++ "[/bold blue]")
            (((k0, v0) :: kvs).map fun kv => py_title (underscoreToSpace kv.1))
            rows caption] := by
  have hroute : rprint_display_any parse
      (.list (PyVal.dict ((k0, v0) :: kvs) :: rest.map PyVal.dict)) title
      = rprint_table (((k0, v0) :: kvs) :: rest) title 10 := by
    simp [rprint_display_any, all_isDict_map_dict, PyVal.isDict,
      PyVal.asDict, map_asDict_map_dict]
  exact ⟨_, _, by rw [hroute, rprint_table_cons]⟩

set_option maxRecDepth 8000 in
/-- C3 counterexample: the string `'{"a": 1}'` parses to a 1-entry mapping
(cardinality below the threshold 10), yet `rprint_display_any` renders the
structured JSON panel, not the key-value panel the claim requires for
small parsed mappings. -/
theorem display_any_json_string_counterexample :
    json_loads "\x7b\"a\": 1\x7d" = some (.dict [("a", .int 1)])
    ∧ ([("a", PyVal.int 1)] : PyDict).length < 10
    ∧ rprint_display_any json_loads (.str "\x7b\"a\": 1\x7d") "Data"
        = [.jsonPanel (.dict [("a", .int 1)])
            "[bold cyan]Data[/bold cyan]" "cyan"]
    ∧ ([.jsonPanel (.dict [("a", .int 1)]) "[bold cyan]Data[/bold cyan]"
          "cyan"] : List RenderEvent)
        ≠ rprint_key_value [("a", .int 1)] "Data" := by
  refine ⟨rfl, by decide, rfl, ?_⟩
  simp [rprint_key_value]

/-- C3 (amended): a string payload whose `strip()` starts with a left
brace is handed to the structured renderer, which parses it and always
displays the parsed value as a structured JSON panel regardless of its
cardinality (a parse failure yields the red error notice); any other
string payload is rendered as the plain info line, unparsed. -/
theorem display_any_string_routing (parse : String → Option PyVal)
    (s title : String) :
    rprint_display_any parse (.str s) title
      = (if strippedStartsWithLbrace s then
          match parse s with
          | none => [.line "[red]Invalid JSON string[/red]"]
          | some v =>
            [.jsonPanel v ("[bold cyan]" ++ title ++ "[/bold cyan]") "cyan"]
        else [.line ("[blue]ℹ " ++ (title ++ ": " ++ s) ++ "[/blue]")]) := by
  by_cases h : strippedStartsWithLbrace s <;>
    simp [rprint_display_any, rprint_json, rprint_info, h]

/-- C4: every text preview longer than the cap is cut to exactly the first
`max_chars` characters with the ellipsis marker `"..."` appended. -/
theorem rprint_preview_text_truncates (text : String) (max_chars : Nat)
    (h : text.length > max_chars) :
    rprint_preview_text text max_chars
      = [.line ("[dim]" ++ (String.mk (text.data.take max_chars) ++ "...")
          ++ "[/dim]")] := by
  simp [rprint_preview_text, h]

set_option maxRecDepth 8000 in
/-- C4 witness: a 200-character string with a cap of 50 renders as exactly
its first 50 characters followed by `"..."`. -/
theorem rprint_preview_text_truncates_witness :
    (String.mk (List.replicate 200 'x')).length > 50
    ∧ rprint_preview_text (String.mk (List.replicate 200 'x')) 50
        = [.line ("[dim]"
            ++ (String.mk ((String.mk (List.replicate 200 'x')).data.take 50)
              ++ "...") ++ "[/dim]")]
    ∧ String.mk ((String.mk (List.replicate 200 'x')).data.take 50)
        = String.mk (List.replicate 50 'x') :=
  ⟨by decide,
   rprint_preview_text_truncates (String.mk (List.replicate 200 'x')) 50
     (by decide),
   rfl⟩

set_option maxRecDepth 8000 in
/-- C5: a non-empty table input renders exactly
`min max_rows (number of rows)` rows; the caption is present exactly when
rows were omitted and reads `Showing {max_rows} of {total} rows`, which
determines the hidden count as the difference.  Concretely, 15 rows with
the cap 10 render 10 rows captioned `Showing 10 of 15 rows` (5 omitted). -/
theorem rprint_table_row_cap (first : PyDict) (rest : List PyDict)
    (title : String) (max_rows : Nat) :
    ∃ columns rows caption,
      rprint_table (first :: rest) title max_rows
        = [.tableOut ("[bold blue]" ++ title ++ "[/bold blue]")
            columns rows caption]
      ∧ rows.length = min max_rows (first :: rest).length
      ∧ caption = (if (first :: rest).length > max_rows then
          some ("Showing " ++ toString max_rows ++ " of "
            ++ toString (first :: rest).length ++ " rows") else none)
      ∧ rprint_table (List.replicate 15 ([("a", PyVal.int 1)] : PyDict))
            "T" 10
          = [.tableOut "[bold blue]T[/bold blue]" ["A"]
              (List.replicate 10 ["1"]) (some "Showing 10 of 15 rows")] := by
  refine ⟨_, _, _, rprint_table_cons first rest title max_rows, ?_, rfl, rfl⟩
  simp [List.length_take]

/-- C6: for every string payload on which the parse function fails,
`rprint_json` returns normally with the single red-styled notice
`Invalid JSON string` (the parse error is caught, never re-raised). -/
theorem rprint_json_parse_failure (parse : String → Option PyVal)
    (s title : String) (h : parse s = none) :
    rprint_json parse (.str s) title
      = [.line "[red]Invalid JSON string[/red]"] := by
  simp [rprint_json, h]

/-- C6 witness: the malformed string `"{not json"` fails to parse and
yields the red parse-failure notice. -/
theorem rprint_json_parse_failure_witness :
    json_loads "\x7bnot json" = none
    ∧ rprint_json json_loads (.str "\x7bnot json") "Data"
        = [.line "[red]Invalid JSON string[/red]"] :=
  ⟨rfl, rprint_json_parse_failure json_loads "\x7bnot json" "Data" rfl⟩

/-- C7 (code bug): every call of `rprint_log`, whatever the message and
level, raises `NameError` — the dispatch `level_map.get(level, info)`
evaluates the default argument `info`, a global name the module never
defines, before the lookup can succeed.  No neutral-default fallback is
reached, contradicting the spec's recovered-locally contract. -/
theorem rprint_log_raises_NameError (message level : String) :
    rprint_log message level
      = .error "NameError: name 'info' is not defined" := rfl

/-- C8: zero rows reach the table path as a warning-styled message, not an
empty grid — both on a direct `rprint_table` call with an empty list and
through `rprint_display_any` on an empty list payload (whose
all-elements-are-dicts check is vacuously true). -/
theorem empty_table_warning (parse : String → Option PyVal)
    (title : String) (max_rows : Nat) :
    rprint_table [] title max_rows
        = [.line "[yellow]⚠ No data for table[/yellow]"]
    ∧ rprint_display_any parse (.list []) title
        = [.line "[yellow]⚠ No data for table[/yellow]"] :=
  ⟨rfl, rfl⟩

/-- C9: whenever `rprint_ask_choice` returns an answer, that answer is a
member of the supplied choices; answers outside the set are re-prompted
(skipped), never returned and never surfaced as an error. -/
theorem rprint_ask_choice_mem (question : String)
    (choices answers : List String) (r : String)
    (h : rprint_ask_choice question choices answers = some r) :
    r ∈ choices := by
  have hfind := List.find?_some h
  simpa using hfind

/-- C9 witness: `askChoice("pick", ["a","b"])` skips the invalid answer
`"c"` and returns `"a"`, which is a member of the choices. -/
theorem rprint_ask_choice_mem_witness :
    rprint_ask_choice "pick" ["a", "b"] ["c", "a"] = some "a"
    ∧ "a" ∈ ["a", "b"] :=
  ⟨rfl, rprint_ask_choice_mem "pick" ["a", "b"] ["c", "a"] "a" rfl⟩

/-- C10: `rprint_progress_bar` divides by `total` with no guard: with
`total = 0` it raises `ZeroDivisionError`; with `total ≠ 0` it is safe and
writes exactly one progress line. -/
theorem rprint_progress_bar_spec (current total : Nat)
    (description : String) :
    (total = 0 → rprint_progress_bar current total description
        = .error "ZeroDivisionError: division by zero")
    ∧ (total ≠ 0 → ∃ e, rprint_progress_bar current total description
        = .ok [e]) := by
  constructor
  · intro h
    simp [rprint_progress_bar, h]
  · intro h
    exact ⟨_, by unfold rprint_progress_bar; rw [if_neg h]⟩

/-- C10 witness: `total = 0` raises; `total = 10` writes one line. -/
theorem rprint_progress_bar_spec_witness :
    rprint_progress_bar 3 0 "Progress"
        = .error "ZeroDivisionError: division by zero"
    ∧ ∃ e, rprint_progress_bar 3 10 "Progress" = .ok [e] :=
  ⟨(rprint_progress_bar_spec 3 0 "Progress").1 rfl,
   (rprint_progress_bar_spec 3 10 "Progress").2 (by decide)⟩
